import Mathlib

/-!
Shallow embedding of the calorie-tracker backend (src/backend/server.py) and
proofs about the behaviour its specification describes.

Conventions of the embedding:
* Python floats are modelled as exact rationals (ℚ); Python ints as ℤ/ℕ.
* UTC instants are modelled as integers counting microseconds since the epoch,
  so a UTC calendar day `d` covers the half-open-by-microseconds window
  `[d * usPerDay, d * usPerDay + usPerDay - 1]` (Python's
  `datetime.min.time()` / `datetime.max.time()` bounds, inclusive on both ends).
* Exceptions are modelled with `Except PyErr`; a FastAPI `HTTPException` is the
  `httpException` constructor, and uncaught Python runtime errors such as
  `NameError` or `ZeroDivisionError` get their own constructors.
* The Mongo store is modelled as in-memory lists of profile and entry records.
-/

namespace CalorieTracker

/-- Errors a request handler can surface: an explicit `HTTPException`
(status code and detail string, as raised throughout server.py) or an uncaught
Python runtime error. -/
inductive PyErr where
  | httpException (status : Nat) (detail : String)
  | nameError
  | zeroDivisionError
  | attributeError
  | typeError
  | keyError
  deriving Repr, DecidableEq

/-- ASCII lower-casing of one character, as Python's `str.lower` acts on the
ASCII range (the only range that matters for the comparison with "male"). -/
def lowerChar (c : Char) : Char :=
  if c.isUpper then Char.ofNat (c.toNat + 32) else c

/-- Embedding of Python's `gender.lower()` (server.py line 69). -/
def pyLower (s : String) : String := String.mk (s.data.map lowerChar)

/-- Activity-multiplier lookup of `calculate_daily_calories` (server.py lines
75-84): the Python dict `.get(activity_level, 1.375)`, so an unrecognized
level falls back to 1.375. -/
def activity_multiplier (activity_level : String) : ℚ :=
  if activity_level = "sedentary" then 1.2
  else if activity_level = "lightly_active" then 1.375
  else if activity_level = "moderately_active" then 1.55
  else if activity_level = "very_active" then 1.725
  else if activity_level = "extra_active" then 1.9
  else 1.375

/-- Embedding of `calculate_daily_calories` (server.py lines 66-94):
Harris-Benedict BMR, activity multiplier, then the loss / gain / maintenance
goal adjustment. -/
def calculate_daily_calories (age : ℤ) (gender : String) (height weight : ℚ)
    (activity_level : String) (goal_weight : ℚ) : ℚ :=
  let bmr : ℚ :=
    if pyLower gender = "male" then
      88.362 + 13.397 * weight + 4.799 * height - 5.677 * (age : ℚ)
    else
      447.593 + 9.247 * weight + 3.098 * height - 4.330 * (age : ℚ)
  let tdee := bmr * activity_multiplier activity_level
  if goal_weight < weight then
    max 1200 (tdee - min 500 ((weight - goal_weight) * 50))
  else if goal_weight > weight then
    tdee + min 500 ((goal_weight - weight) * 50)
  else
    tdee

/-- C7: for every biometric input with goal weight strictly below current
weight, the computed daily calorie target is
max(1200, TDEE − min(500, (weight − goal_weight) · 50)), hence at least 1200. -/
theorem loss_branch_target (age : ℤ) (gender : String) (height weight : ℚ)
    (activity_level : String) (goal_weight : ℚ) (h : goal_weight < weight) :
    calculate_daily_calories age gender height weight activity_level goal_weight =
      max 1200 ((if pyLower gender = "male" then
          88.362 + 13.397 * weight + 4.799 * height - 5.677 * (age : ℚ)
        else
          447.593 + 9.247 * weight + 3.098 * height - 4.330 * (age : ℚ)) *
          activity_multiplier activity_level - min 500 ((weight - goal_weight) * 50)) ∧
    1200 ≤ calculate_daily_calories age gender height weight activity_level goal_weight := by
  have hcal : calculate_daily_calories age gender height weight activity_level goal_weight =
      max 1200 ((if pyLower gender = "male" then
          88.362 + 13.397 * weight + 4.799 * height - 5.677 * (age : ℚ)
        else
          447.593 + 9.247 * weight + 3.098 * height - 4.330 * (age : ℚ)) *
          activity_multiplier activity_level - min 500 ((weight - goal_weight) * 50)) := by
    simp only [calculate_daily_calories]
    rw [if_pos h]
  exact ⟨hcal, hcal ▸ le_max_left _ _⟩

/-- Witness for C7 at age 25, male, 175 cm, 70 kg, moderately active, goal 65 kg. -/
theorem loss_branch_target_witness :
    (65 : ℚ) < 70 ∧
      1200 ≤ calculate_daily_calories 25 "male" 175 70 "moderately_active" 65 :=
  ⟨by norm_num,
   (loss_branch_target 25 "male" 175 70 "moderately_active" 65 (by norm_num)).2⟩

/-- C9 counterexample: on age 25, male, 175 cm, 70 kg, moderately active,
goal 65 kg, the function does not return the value 2423.63375 claimed by the
specification's worked example (the example miscomputes the BMR sum). -/
theorem calc_example_counterexample :
    calculate_daily_calories 25 "male" 175 70 "moderately_active" 65 ≠ 2423.63375 := by
  have hg : pyLower "male" = "male" := by decide
  have hm : activity_multiplier "moderately_active" = 1.55 := by simp [activity_multiplier]
  simp only [calculate_daily_calories, hg, hm]
  norm_num [min_def, max_def]

/-- C9 amended: on that input the exact result is 2422.2806
(BMR = 1724.052, TDEE = 1724.052 · 1.55 = 2672.2806, deficit = 250). -/
theorem calc_example_value :
    calculate_daily_calories 25 "male" 175 70 "moderately_active" 65 = 2422.2806 := by
  have hg : pyLower "male" = "male" := by decide
  have hm : activity_multiplier "moderately_active" = 1.55 := by simp [activity_multiplier]
  simp only [calculate_daily_calories, hg, hm]
  norm_num [min_def, max_def]

/-- Python values produced by `json.loads`, as far as the analyzer pipeline
inspects them: JSON null, booleans, numbers, strings, arrays and objects. -/
inductive JVal where
  | null : JVal
  | bool : Bool → JVal
  | num : ℚ → JVal
  | str : String → JVal
  | arr : List JVal → JVal
  | obj : List (String × JVal) → JVal

/-- First binding of a key in an object's key/value list (Python dict keys are
unique, so first-match lookup is exact). -/
def lookupKey (key : String) : List (String × JVal) → Option JVal
  | [] => none
  | (k, v) :: rest => if k = key then some v else lookupKey key rest

/-- Python's `value.get(key, fallbackVal)`: succeeds only on a dict; on any
other value the `.get` attribute access raises `AttributeError`. -/
def dict_get (j : JVal) (key : String) (fallbackVal : JVal) : Except PyErr JVal :=
  match j with
  | .obj kvs => .ok ((lookupKey key kvs).getD fallbackVal)
  | _ => .error .attributeError

/-- One step of the comprehension on server.py line 214, `item["name"]` fed to
a string join: a non-subscriptable item raises `TypeError`, a dict without the
key raises `KeyError`, and a non-string name makes the later
`", ".join(...)` raise `TypeError`. -/
def item_name (item : JVal) : Except PyErr String :=
  match item with
  | .obj kvs =>
    match lookupKey "name" kvs with
    | some (.str s) => .ok s
    | some _ => .error .typeError
    | none => .error .keyError
  | _ => .error .typeError

/-- The `analysis_result.get("food_items", [])` value iterated on server.py
line 214; iterating anything other than a list fails with `TypeError`
(a string or dict would iterate, but each element then fails the
subscript in `item_name` with the same `TypeError`). -/
def food_items_of (j : JVal) : Except PyErr (List JVal) :=
  match dict_get j "food_items" (.arr []) with
  | .error e => .error e
  | .ok (.arr xs) => .ok xs
  | .ok _ => .error .typeError

/-- The list comprehension of server.py line 214 in evaluation order: collect
each item's name, propagating the first failure. -/
def item_names : List JVal → Except PyErr (List String)
  | [] => .ok []
  | item :: rest =>
    match item_name item with
    | .error e => .error e
    | .ok s =>
      match item_names rest with
      | .error e => .error e
      | .ok ss => .ok (s :: ss)

/-- The canonical entry fields computed by `analyze_food` (server.py lines
213-216): joined food name, the analyzer total and overall confidence kept as
the raw JSON values Python would store. -/
structure NormalizedEntry where
  food_name : String
  calories : JVal
  confidence : JVal

/-- Embedding of the normalization step of `analyze_food` (server.py lines
213-216): join the item names with a comma separator, then read
`total_calories` (default 0) and `analysis_confidence` (default 0.5). -/
def normalize_analysis (analysis_result : JVal) : Except PyErr NormalizedEntry :=
  match food_items_of analysis_result with
  | .error e => .error e
  | .ok items =>
    match item_names items with
    | .error e => .error e
    | .ok names =>
      match dict_get analysis_result "total_calories" (.num 0) with
      | .error e => .error e
      | .ok total_calories =>
        match dict_get analysis_result "analysis_confidence" (.num 0.5) with
        | .error e => .error e
        | .ok confidence =>
          .ok ⟨String.intercalate ", " names, total_calories, confidence⟩

/-- Outcome of the external provider call together with the JSON decoding of
its (extracted) response text, the two effects `analyze_food_with_ai` cannot
compute itself: either the call raised / timed out, or it returned text whose
`json.loads` result is `resp`'s payload (`Except.error` standing for
`json.JSONDecodeError`). For example a response text of "[]" decodes to
`resp (Except.ok (JVal.arr []))`. -/
inductive AnalyzerResult where
  | exn : AnalyzerResult
  | resp : Except Unit JVal → AnalyzerResult

/-- The fixed fallback dict of `analyze_food_with_ai` (server.py lines 150-156
and 158-165); only the confidence differs between the two fallback sites, and
the `notes` text (which embeds the raw response or exception message) is never
read by any later lookup. -/
def fallback_analysis (confidence : ℚ) (notes : String) : JVal :=
  .obj [("food_items", .arr [.obj [("name", .str "Unknown food"),
          ("portion_size", .str "1 serving"),
          ("calories", .num 200),
          ("confidence", .num confidence)]]),
        ("total_calories", .num 200),
        ("analysis_confidence", .num confidence),
        ("notes", .str notes)]

/-- Embedding of `analyze_food_with_ai` (server.py lines 96-165): a provider
exception yields the 0.2-confidence fallback dict, a `json.JSONDecodeError`
yields the 0.3-confidence fallback dict, and otherwise the decoded JSON value
is returned as-is. -/
def analyze_food_with_ai : AnalyzerResult → JVal
  | .exn => fallback_analysis 0.2 "Error occurred"
  | .resp (.error _) => fallback_analysis 0.3 "Analysis text"
  | .resp (.ok j) => j

/-- Embedding of the `analyze_food` endpoint's computation of the normalized
entry (server.py lines 205-244): any exception in the normalization is caught
by the handler's `except Exception` and re-raised as HTTP 500. Entry-id
generation and the database insert are I/O outside this model. -/
def analyze_food (result : AnalyzerResult) : Except PyErr NormalizedEntry :=
  match normalize_analysis (analyze_food_with_ai result) with
  | .ok e => .ok e
  | .error _ => .error (.httpException 500 "Error analyzing food")

/-- Spec-side reading (for comparison only, following the specification's
words) of "the sum of the individual item calories": add up the numeric
`calories` value of each item. -/
def spec_item_calories_sum (items : List JVal) : ℚ :=
  (items.map (fun item =>
    match item with
    | .obj kvs =>
      match lookupKey "calories" kvs with
      | some (.num q) => q
      | _ => 0
    | _ => 0)).sum

/-- An analyzer response that parses as structured data but carries no
`total_calories` key: one item named "Apple" worth 95 calories. -/
def apple_response : JVal :=
  .obj [("food_items", .arr [.obj [("name", .str "Apple"),
          ("calories", .num 95), ("confidence", .num 0.9)]]),
        ("analysis_confidence", .num 0.9)]

/-- C4 counterexample: on a structured response whose `total_calories` key is
absent, the code stores calories 0 (the Python `.get` default), not the
95-calorie item sum the claim requires. -/
theorem normalize_missing_total_counterexample :
    normalize_analysis apple_response = .ok ⟨"Apple", .num 0, .num 0.9⟩ ∧
    spec_item_calories_sum [.obj [("name", .str "Apple"),
        ("calories", .num 95), ("confidence", .num 0.9)]] = 95 ∧
    JVal.num 0 ≠ JVal.num 95 := by
  refine ⟨rfl, by simp [spec_item_calories_sum, lookupKey], ?_⟩
  intro h
  injection h with h'
  exact absurd h' (by norm_num)

/-- C4 amended: for every analyzer response successfully parsed as structured
data, the food name is the comma-join of the item names in order and the
calories are the analyzer-provided total when that key is present; when the
`total_calories` key is absent the stored calories are the default 0, not the
sum of the item calories. -/
theorem normalize_structured (kvs : List (String × JVal)) (items : List JVal)
    (names : List String)
    (hitems : (lookupKey "food_items" kvs).getD (.arr []) = .arr items)
    (hnames : item_names items = .ok names) :
    normalize_analysis (.obj kvs) =
      .ok ⟨String.intercalate ", " names,
           (lookupKey "total_calories" kvs).getD (.num 0),
           (lookupKey "analysis_confidence" kvs).getD (.num 0.5)⟩ := by
  have h1 : food_items_of (.obj kvs) = .ok items := by
    unfold food_items_of dict_get
    simp [hitems]
  unfold normalize_analysis
  rw [h1]
  simp [hnames, dict_get]

/-- Witness for C4's amended statement on a two-item response with an explicit
analyzer total of 230 (deliberately different from the 215-calorie item sum,
showing the total is taken as provided). -/
theorem normalize_structured_witness :
    normalize_analysis (.obj [("food_items", .arr
        [.obj [("name", .str "Apple"), ("calories", .num 95)],
         .obj [("name", .str "Bread"), ("calories", .num 120)]]),
      ("total_calories", .num 230), ("analysis_confidence", .num 0.8)]) =
      .ok ⟨"Apple, Bread", .num 230, .num 0.8⟩ :=
  normalize_structured
    [("food_items", .arr
        [.obj [("name", .str "Apple"), ("calories", .num 95)],
         .obj [("name", .str "Bread"), ("calories", .num 120)]]),
      ("total_calories", .num 230), ("analysis_confidence", .num 0.8)]
    [.obj [("name", .str "Apple"), ("calories", .num 95)],
     .obj [("name", .str "Bread"), ("calories", .num 120)]]
    ["Apple", "Bread"] rfl rfl

/-- C5 counterexample: a provider response whose text decodes to the JSON
array `[]` (for example the literal response text "[]") is non-erroring and
not parseable as the expected structured data, yet `analyze_food` does not
produce the 0.3-confidence fallback entry: the `.get` attribute access fails
and the endpoint's handler raises HTTP 500. -/
theorem analyze_food_unparseable_counterexample :
    analyze_food (.resp (.ok (.arr []))) =
      .error (.httpException 500 "Error analyzing food") ∧
    ∀ e, analyze_food (.resp (.ok (.arr []))) ≠ .ok e := by
  refine ⟨rfl, fun e h => ?_⟩
  rw [(rfl : analyze_food (.resp (.ok (.arr []))) =
      .error (.httpException 500 "Error analyzing food"))] at h
  exact Except.noConfusion h

/-- C5 amended: a provider exception or timeout yields the fallback entry with
food name "Unknown food", calories 200 and confidence 0.2, and a provider
response whose JSON decoding fails yields the same entry with confidence 0.3;
a response that decodes to JSON which is not an object of the expected shape
instead escapes as an HTTP 500 error. -/
theorem analyze_food_fallback :
    analyze_food .exn = .ok ⟨"Unknown food", .num 200, .num 0.2⟩ ∧
    analyze_food (.resp (.error ())) = .ok ⟨"Unknown food", .num 200, .num 0.3⟩ := by
  exact ⟨rfl, rfl⟩

/-- A stored profile document (the `UserProfile` pydantic model, server.py
lines 33-43, as persisted by `create_or_update_profile`); `daily_calorie_target`
is `none` when the document lacks the key, which is what the `.get(...)`
defaults react to. The `created_at` instant plays no role in any claim and is
omitted. -/
structure UserProfile where
  user_id : String
  name : String
  age : ℤ
  gender : String
  height : ℚ
  weight : ℚ
  activity_level : String
  goal_weight : ℚ
  daily_calorie_target : Option ℚ
  deriving Repr, DecidableEq

/-- A stored calorie-entry document (the dict inserted by `analyze_food`,
server.py lines 219-229); `timestamp` is a UTC instant in microseconds since
the epoch. The opaque `analysis_details` blob is never read by the
aggregation code and is omitted. -/
structure CalorieEntry where
  entry_id : String
  user_id : String
  food_name : String
  calories : ℚ
  meal_type : String
  image_base64 : Option String
  timestamp : ℤ
  confidence : Option ℚ
  deriving Repr, DecidableEq

/-- The Mongo database: the `profiles` and `calorie_entries` collections. -/
structure Store where
  profiles : List UserProfile
  calorie_entries : List CalorieEntry
  deriving Repr, DecidableEq

/-- Embedding of `db.profiles.find_one({"user_id": user_id})`. -/
def find_profile (s : Store) (user_id : String) : Option UserProfile :=
  s.profiles.find? (fun p => p.user_id = user_id)

/-- Number of microseconds of one UTC calendar day: the window
`[datetime.min.time(), datetime.max.time()]` of a day `d` is
`[d * usPerDay, d * usPerDay + usPerDay - 1]`. -/
def usPerDay : ℤ := 86400000000

/-- Stable insertion of an entry behind all earlier-or-equal timestamps,
building the ascending order `sort("timestamp", 1)` returns. -/
def insertByTimestamp (e : CalorieEntry) : List CalorieEntry → List CalorieEntry
  | [] => [e]
  | x :: xs =>
    if x.timestamp ≤ e.timestamp then x :: insertByTimestamp e xs
    else e :: x :: xs

/-- Ascending stable sort by timestamp, modelling the store's
`sort("timestamp", 1)` ordering of the fetched entries. -/
def sortByTimestamp : List CalorieEntry → List CalorieEntry
  | [] => []
  | x :: xs => insertByTimestamp x (sortByTimestamp xs)

/-- The response shape of `get_daily_intake` (server.py lines 299-305), with
the date as a UTC day number. -/
structure DailyIntakeResponse where
  date : ℤ
  total_calories : ℚ
  target_calories : ℚ
  entries : List CalorieEntry
  remaining_calories : ℚ
  deriving Repr, DecidableEq

/-- Embedding of `get_daily_intake` (server.py lines 263-305): `today` is the
UTC day of "now" and `date` the optional requested day (its ISO-string parsing,
whose failure raises HTTP 400, is outside this model). Profile lookup, the
inclusive day window, the timestamp-ordered fetch, the calorie sum, and the
zero-clamped remaining budget follow the source line by line. -/
def get_daily_intake (s : Store) (today : ℤ) (user_id : String) (date : Option ℤ) :
    Except PyErr DailyIntakeResponse :=
  let target_date := date.getD today
  match find_profile s user_id with
  | none => .error (.httpException 404 "User profile not found")
  | some profile =>
    let start_ts := target_date * usPerDay
    let end_ts := target_date * usPerDay + (usPerDay - 1)
    let entries := sortByTimestamp (s.calorie_entries.filter
      (fun e => e.user_id == user_id &&
        decide (start_ts ≤ e.timestamp) && decide (e.timestamp ≤ end_ts)))
    let total_calories := (entries.map (fun e => e.calories)).sum
    let target_calories := profile.daily_calorie_target.getD 2000
    .ok ⟨target_date, total_calories, target_calories, entries,
         max 0 (target_calories - total_calories)⟩

/-- The fixed meal-type enumeration of `update_meal_type` (server.py line 249). -/
def valid_meal_types : List String := ["breakfast", "lunch", "dinner", "snack"]

/-- The `update_one` write of server.py lines 253-256: set the meal type of
the first entry with the given id, leaving every other document untouched. -/
def set_first_meal_type (entry_id meal_type : String) :
    List CalorieEntry → List CalorieEntry
  | [] => []
  | e :: es =>
    if e.entry_id = entry_id then { e with meal_type := meal_type } :: es
    else e :: set_first_meal_type entry_id meal_type es

/-- Embedding of `update_meal_type` (server.py lines 246-261): reject an
invalid meal type with HTTP 400 before touching the store, then report HTTP
404 when no entry matches (the source updates first and then inspects
`matched_count`; with no match the update writes nothing, so checking first is
the same function on the store). -/
def update_meal_type (s : Store) (entry_id meal_type : String) :
    Except PyErr Store :=
  if meal_type ∉ valid_meal_types then
    .error (.httpException 400 "Invalid meal type")
  else if s.calorie_entries.all (fun e => e.entry_id != entry_id) then
    .error (.httpException 404 "Entry not found")
  else
    .ok { s with calorie_entries :=
            set_first_meal_type entry_id meal_type s.calorie_entries }

/-- A row of the `get_history` response (server.py lines 356-362). -/
structure HistoryRow where
  date : String
  total_calories : ℚ
  target_calories : ℚ
  entry_count : ℕ
  percentage_of_target : ℚ
  deriving Repr, DecidableEq

/-- Embedding of the per-day row construction inside `get_history`'s result
loop (server.py lines 353-361): the target defaults to 2000 only when the
profile document lacks the key, and Python's division raises
`ZeroDivisionError` when the target is 0. Because `get_history` raises
`NameError` before reaching its aggregation (see `get_history` below), this
loop body is dead code at runtime; it is still exactly the computation the
specification describes. -/
def history_row (daily_calorie_target : Option ℚ) (date : String)
    (total_calories : ℚ) (entry_count : ℕ) : Except PyErr HistoryRow :=
  let target_calories := daily_calorie_target.getD 2000
  if target_calories = 0 then .error .zeroDivisionError
  else .ok ⟨date, total_calories, target_calories, entry_count,
            total_calories / target_calories * 100⟩

/-- The response shape of `get_history` (server.py lines 364-368). -/
structure HistoryResponse where
  history : List HistoryRow
  target_calories : ℚ
  period_days : ℤ
  deriving Repr, DecidableEq

/-- Embedding of `get_history` (server.py lines 317-368). After the profile
lookup succeeds, line 326 evaluates `timedelta(days=days-1)`, but line 4
imports only `datetime` and `timezone` from the datetime module and no other
binding of `timedelta` exists in server.py, so the name lookup raises
`NameError` on every such call; the aggregation pipeline and row loop below
it are unreachable. -/
def get_history (s : Store) (user_id : String) (days : ℤ) :
    Except PyErr HistoryResponse :=
  match find_profile s user_id with
  | none => .error (.httpException 404 "User profile not found")
  | some _ => .error .nameError

/-- Only the first entry with the sought id changes, and only in its
`meal_type` field; entries before it (none of which match) and after it are
returned unchanged. -/
lemma set_first_meal_type_append (meal_type : String) (e : CalorieEntry)
    (pre post : List CalorieEntry)
    (hpre : ∀ x ∈ pre, x.entry_id ≠ e.entry_id) :
    set_first_meal_type e.entry_id meal_type (pre ++ e :: post) =
      pre ++ { e with meal_type := meal_type } :: post := by
  induction pre with
  | nil => simp [set_first_meal_type]
  | cons x xs ih =>
    have hx : x.entry_id ≠ e.entry_id := hpre x (by simp)
    simp only [List.cons_append, set_first_meal_type, if_neg hx,
      List.cons.injEq, true_and]
    exact ih (fun y hy => hpre y (by simp [hy]))

/-- A demonstration profile, entry and store used by the concrete witnesses:
Alice has a 2000-calorie target and one 2500-calorie entry on UTC day 12. -/
def demoProfile : UserProfile :=
  ⟨"alice", "Alice", 30, "female", 165, 60, "sedentary", 55, some 2000⟩

/-- The single stored entry of the demonstration store. -/
def demoEntry : CalorieEntry :=
  ⟨"e1", "alice", "Pizza", 2500, "unspecified", none, 12 * usPerDay + 5, some (9/10)⟩

/-- The demonstration store holding `demoProfile` and `demoEntry`. -/
def demoStore : Store := ⟨[demoProfile], [demoEntry]⟩

/-- The daily-intake response the demonstration store produces for day 12:
the 2500-calorie total exceeds the 2000-calorie target, so the remaining
budget clamps to 0. -/
def demoResponse : DailyIntakeResponse := ⟨12, 2500, 2000, [demoEntry], 0⟩

/-- C8: every successful `get_daily_intake` response has remaining calories
equal to max(0, target − total), hence never negative, whatever the target
and summed total are. -/
theorem remaining_calories_clamped (s : Store) (today : ℤ) (user_id : String)
    (date : Option ℤ) (r : DailyIntakeResponse)
    (h : get_daily_intake s today user_id date = .ok r) :
    r.remaining_calories = max 0 (r.target_calories - r.total_calories) ∧
      0 ≤ r.remaining_calories := by
  simp only [get_daily_intake] at h
  cases hf : find_profile s user_id with
  | none => rw [hf] at h; exact Except.noConfusion h
  | some p =>
    rw [hf] at h
    cases h
    exact ⟨rfl, le_max_left 0 _⟩

/-- Witness for C8 on the demonstration store, where the total exceeds the
target and the remaining budget is clamped to 0. -/
theorem remaining_calories_clamped_witness :
    demoResponse.remaining_calories =
      max 0 (demoResponse.target_calories - demoResponse.total_calories) ∧
    0 ≤ demoResponse.remaining_calories :=
  remaining_calories_clamped demoStore 12 "alice" none demoResponse (by
    simp only [get_daily_intake, demoStore, demoProfile, demoEntry, demoResponse,
      find_profile, usPerDay, sortByTimestamp, insertByTimestamp]
    norm_num [List.filter, sortByTimestamp, insertByTimestamp, max_def])

/-- C6: a meal type outside the fixed enumeration is rejected with HTTP 400
before the store is consulted, so regardless of entry existence; a valid meal
type with no matching entry is rejected with HTTP 404. -/
theorem set_meal_type_validation (s : Store) (entry_id meal_type : String) :
    (meal_type ∉ valid_meal_types →
      update_meal_type s entry_id meal_type =
        .error (.httpException 400 "Invalid meal type")) ∧
    (meal_type ∈ valid_meal_types →
      (∀ e ∈ s.calorie_entries, e.entry_id ≠ entry_id) →
      update_meal_type s entry_id meal_type =
        .error (.httpException 404 "Entry not found")) := by
  constructor
  · intro hnv
    unfold update_meal_type
    rw [if_pos hnv]
  · intro hv hno
    unfold update_meal_type
    rw [if_neg (not_not_intro hv), if_pos]
    simp only [List.all_eq_true, bne_iff_ne, ne_eq]
    exact hno

/-- Witness for C6: the unknown meal type "brunch" yields HTTP 400 even though
entry "e1" exists, and the valid meal type "lunch" on an id with no entry
yields HTTP 404. -/
theorem set_meal_type_validation_witness :
    update_meal_type demoStore "e1" "brunch" =
      .error (.httpException 400 "Invalid meal type") ∧
    update_meal_type demoStore "missing" "lunch" =
      .error (.httpException 404 "Entry not found") :=
  ⟨(set_meal_type_validation demoStore "e1" "brunch").1 (by decide),
   (set_meal_type_validation demoStore "missing" "lunch").2 (by decide)
     (by decide)⟩

/-- C10: a successful meal-type update rewrites exactly the matched entry's
`meal_type`; its user id, food name, calories, image reference, timestamp and
confidence are untouched, and every other stored entry (and the profile
collection) is returned unchanged. -/
theorem set_meal_type_frame (profiles : List UserProfile)
    (pre post : List CalorieEntry) (e : CalorieEntry) (meal_type : String)
    (hv : meal_type ∈ valid_meal_types)
    (hpre : ∀ x ∈ pre, x.entry_id ≠ e.entry_id) :
    update_meal_type ⟨profiles, pre ++ e :: post⟩ e.entry_id meal_type =
      .ok ⟨profiles, pre ++ { e with meal_type := meal_type } :: post⟩ ∧
    ({ e with meal_type := meal_type }).user_id = e.user_id ∧
    ({ e with meal_type := meal_type }).food_name = e.food_name ∧
    ({ e with meal_type := meal_type }).calories = e.calories ∧
    ({ e with meal_type := meal_type }).image_base64 = e.image_base64 ∧
    ({ e with meal_type := meal_type }).timestamp = e.timestamp ∧
    ({ e with meal_type := meal_type }).confidence = e.confidence := by
  refine ⟨?_, rfl, rfl, rfl, rfl, rfl, rfl⟩
  unfold update_meal_type
  rw [if_neg (not_not_intro hv)]
  rw [if_neg ?_, set_first_meal_type_append meal_type e pre post hpre]
  simp only [List.all_eq_true, bne_iff_ne, ne_eq, not_forall]
  exact ⟨e, by simp, by simp⟩

/-- Witness for C10: reclassifying the demonstration entry as breakfast
changes only its meal type. -/
theorem set_meal_type_frame_witness :
    update_meal_type demoStore "e1" "breakfast" =
      .ok ⟨[demoProfile], [{ demoEntry with meal_type := "breakfast" }]⟩ :=
  (set_meal_type_frame [demoProfile] [] [] demoEntry "breakfast" (by decide)
    (by simp)).1

/-- C2: whenever the requested user has a stored profile, `get_history`
raises `NameError` (the window computation names the never-imported
`timedelta`), and no call of `get_history` ever returns a history result. -/
theorem get_history_raises (s : Store) (user_id : String) (days : ℤ) :
    ((find_profile s user_id).isSome = true →
      get_history s user_id days = .error .nameError) ∧
    ∀ r, get_history s user_id days ≠ .ok r := by
  unfold get_history
  cases find_profile s user_id <;> simp

/-- Witness for C2 on the demonstration store, whose profile exists. -/
theorem get_history_raises_witness :
    get_history demoStore "alice" 7 = .error .nameError :=
  (get_history_raises demoStore "alice" 7).1 (by rfl)

/-- C1: evaluation at the failing input. Alice has a profile and a stored
entry on UTC day 12, yet `GetHistory("alice", 7)` raises `NameError` (HTTP
500) instead of returning the date-ascending sparse rows the claim
describes, because `timedelta` on server.py line 326 is never imported. -/
theorem get_history_failing_input :
    (find_profile demoStore "alice").isSome = true ∧
    demoStore.calorie_entries ≠ [] ∧
    get_history demoStore "alice" 7 = .error PyErr.nameError := by
  refine ⟨rfl, by decide, rfl⟩

/-- C3 counterexample: a stored profile whose daily calorie target is present
and 0 makes the percentage computation divide by zero on any grouped day,
contradicting the claim that the computation is safe for every stored profile
including a zero target (the `.get` default 2000 only reacts to an absent
key). -/
theorem history_row_zero_target_counterexample :
    history_row (some 0) "2025-01-01" 500 1 = .error .zeroDivisionError := rfl

/-- C3 amended: when the profile's daily calorie target is absent it defaults
to 2000, and for every target that is absent or nonzero the
percentage-of-target total/target · 100 is well defined; a stored target of
exactly 0, however, raises `ZeroDivisionError`. -/
theorem history_row_well_defined (daily_calorie_target : Option ℚ)
    (date : String) (total_calories : ℚ) (entry_count : ℕ)
    (h : daily_calorie_target.getD 2000 ≠ 0) :
    history_row daily_calorie_target date total_calories entry_count =
      .ok ⟨date, total_calories, daily_calorie_target.getD 2000, entry_count,
           total_calories / daily_calorie_target.getD 2000 * 100⟩ := by
  unfold history_row
  rw [if_neg h]

/-- Witness for C3's amended statement: an absent target defaults to 2000 and
a 500-calorie day sits at 25 percent of target. -/
theorem history_row_well_defined_witness :
    history_row none "2025-01-01" 500 1 =
      .ok ⟨"2025-01-01", 500, 2000, 1, 25⟩ := by
  rw [history_row_well_defined none "2025-01-01" 500 1 (by decide)]
  norm_num

end CalorieTracker
